import Mathlib

/-!
Shallow embedding of the model-search trial scheduler
(src/model_search/generators/search_candidate_generator.py) and of the
multi-task model-spec assembler (the task manager, whose test suite is
src/model_search/task_manager_test.py).  Machine reals never matter to
the claims, so tensors and losses are opaque; configuration enums and
the scheduler's branch structure are embedded directly.
-/

/-- One past evaluated trial, as read from the persisted registry.  Only
the fields the scheduler inspects are embedded (id, model directory). -/
structure Trial where
  id : Nat
  model_directory : String
deriving DecidableEq

/-- Block-type tags (block_builder.BlockType).  The finite enumeration is
cut down to the members exercised by the repository tests; the scheduler
treats the tags opaquely. -/
inductive BlockType where
  | FIXED_CHANNEL_CONVOLUTION_16
  | FIXED_OUTPUT_FULLY_CONNECTED_128
  | FIXED_OUTPUT_FULLY_CONNECTED_256
  | FIXED_OUTPUT_FULLY_CONNECTED_512
  | FLATTEN
deriving DecidableEq

/-- Ensemble search type tags of the EnsembleSpec proto: the four known
disciplines plus the unset/none tag. -/
inductive EnsembleSearchType where
  | NONE_SEARCH
  | NON_ADAPTIVE
  | ADAPTIVE
  | RESIDUAL
  | INTERMIXED
deriving DecidableEq

/-- Parameters of adaptive/residual ensembling (adaptive_search proto). -/
structure AdaptiveSearchSpec where
  increase_width_every : Nat
deriving DecidableEq

/-- Parameters of intermixed ensembling (intermixed_search proto). -/
structure IntermixedSearchSpec where
  try_ensembling_every : Nat
deriving DecidableEq

/-- The ensemble_spec proto slice read by the scheduler. -/
structure EnsembleSpec where
  ensemble_search_type : EnsembleSearchType
  adaptive_search : AdaptiveSearchSpec
  intermixed_search : IntermixedSearchSpec
deriving DecidableEq

/-- Trial modes (trial_utils.TrialMode), supplied per trial. -/
inductive TrialMode where
  | NO_PRIOR
  | ENSEMBLE_SEARCH
  | DISTILLATION
deriving DecidableEq

/-- Transfer learning type (transfer_learning_spec proto). -/
inductive TransferLearningType where
  | NO_TRANSFER
  | SNAPSHOT
deriving DecidableEq

/-- Modelled from the spec: trial_utils.is_nonadaptive_ensemble_search is
not under src; per the spec the EnsembleSpec is a tagged union and this
predicate recognises the NON_ADAPTIVE tag. -/
def is_nonadaptive_ensemble_search (s : EnsembleSpec) : Bool :=
  s.ensemble_search_type == EnsembleSearchType.NON_ADAPTIVE

/-- Modelled from the spec: trial_utils.is_adaptive_ensemble_search is not
under src; it recognises the ADAPTIVE tag. -/
def is_adaptive_ensemble_search (s : EnsembleSpec) : Bool :=
  s.ensemble_search_type == EnsembleSearchType.ADAPTIVE

/-- Modelled from the spec: trial_utils.is_residual_ensemble_search is not
under src; it recognises the RESIDUAL tag. -/
def is_residual_ensemble_search (s : EnsembleSpec) : Bool :=
  s.ensemble_search_type == EnsembleSearchType.RESIDUAL

/-- Modelled from the spec: trial_utils.is_intermixed_ensemble_search is
not under src; it recognises the INTERMIXED tag. -/
def is_intermixed_ensemble_search (s : EnsembleSpec) : Bool :=
  s.ensemble_search_type == EnsembleSearchType.INTERMIXED

/-- Modelled from the spec: trial_utils.get_intermixed_trials is not under
src; the spec gives the relevant-trial rule for distillation under
intermixed ensembling as the intermixed modulo rule plus exclusion of the
user-suggestion trial ids (ids 1..num_user_suggestions). -/
def get_intermixed_trials (trials : List Trial) (every : Nat)
    (num_user_suggestions : Nat) : List Trial :=
  trials.filter (fun t =>
    decide (t.id % every ≠ 0) && decide (num_user_suggestions < t.id))

/-- Modelled from the spec: architecture_utils.fix_architecture_order is
not under src.  Per the spec an Architecture order is fixed by a
canonicalization rule applied once at construction and never mutated
after, so reading a stored suggestion back is the identity on its tag
sequence. -/
def fix_architecture_order (architecture : List BlockType) : List BlockType :=
  architecture

/-- One entry of phoenix_spec.user_suggestions. -/
structure UserSuggestion where
  architecture : List BlockType
deriving DecidableEq

/-- SearchCandidateGenerator._get_user_suggestion
(search_candidate_generator.py:154-162): the trial_id-th suggestion,
1-indexed, with the canonicalization rule applied. -/
def get_user_suggestion (user_suggestions : List UserSuggestion)
    (trial_id : Nat) : List BlockType :=
  fix_architecture_order
    ((user_suggestions.getD (trial_id - 1) (UserSuggestion.mk [])).architecture)

/-- The slice of the PhoenixSpec configuration the scheduler reads,
together with the external collaborators it consults, passed as
functions: get_best_k is metadata.get_best_k with k = 1 (an external
ranking collaborator) and get_number_of_towers reads the persisted tower
count of a trial's model directory for this generator's name. -/
structure GenContext where
  user_suggestions : List UserSuggestion
  ensemble_spec : EnsembleSpec
  transfer_learning_type : TransferLearningType
  get_best_k : List Trial → Option Trial
  get_number_of_towers : Trial → Nat

/-- The observable decision of one first_time_chief_generate call.
suggested a carries the architecture handed to _create_new_architecture
together with the prev_trial argument (-1 in the user-suggestion branch);
stopSearching is the return of no towers; search r is the invocation of
the search algorithm with relevant trials exactly r followed by
_create_new_architecture on its suggestion; distill t is the clone of
trial t's single tower from its model directory into the current trial's
directory. -/
inductive GenDecision where
  | suggested (architecture : List BlockType) (prev_trial : Int)
  | stopSearching
  | search (relevant_trials : List Trial)
  | distill (best_trial : Trial)
deriving DecidableEq

/-- Number of towers recorded against the generator's name in the
persisted registry for each decision (the set_number_of_towers calls in
search_candidate_generator.py:151, 204, 225, 258). -/
def numTowersRecorded : GenDecision → Nat
  | GenDecision.stopSearching => 0
  | _ => 1

/-- Whether _create_new_architecture initializes variables from a
previous trial checkpoint: only when prev_trial is truthy and positive
and the configured transfer-learning mode is snapshot
(search_candidate_generator.py:139-149). -/
def appliesSnapshot (tl : TransferLearningType) (prev_trial : Int) : Bool :=
  decide (prev_trial ≠ 0) && decide (0 < prev_trial) &&
    (tl == TransferLearningType.SNAPSHOT)

/-- Printable tag name used by the unknown-ensemble-type error message. -/
def ensembleSearchTypeName : EnsembleSearchType → String
  | EnsembleSearchType.NONE_SEARCH => "NONE_SEARCH"
  | EnsembleSearchType.NON_ADAPTIVE => "NON_ADAPTIVE"
  | EnsembleSearchType.ADAPTIVE => "ADAPTIVE"
  | EnsembleSearchType.RESIDUAL => "RESIDUAL"
  | EnsembleSearchType.INTERMIXED => "INTERMIXED"

/-- Embedding of SearchCandidateGenerator.first_time_chief_generate
(search_candidate_generator.py:164-265).  The search-algorithm call and
the tower construction are abstracted into the GenDecision constructors;
raised errors (the ValueError on an unknown ensemble search type, the
assert on the distillation clone path, and the Python ZeroDivisionError
of the modulo at a zero try_ensembling_every) are the Except.error
cases. -/
def first_time_chief_generate (ctx : GenContext) (trial_mode : TrialMode)
    (my_id : Nat) (trials : List Trial) : Except String GenDecision :=
  if my_id ≤ ctx.user_suggestions.length then
    Except.ok (GenDecision.suggested
      (get_user_suggestion ctx.user_suggestions my_id) (-1))
  else if trial_mode = TrialMode.ENSEMBLE_SEARCH then
    if is_nonadaptive_ensemble_search ctx.ensemble_spec then
      Except.ok GenDecision.stopSearching
    else if is_adaptive_ensemble_search ctx.ensemble_spec
        || is_residual_ensemble_search ctx.ensemble_spec then
      if ctx.ensemble_spec.adaptive_search.increase_width_every ≠ 0 then
        Except.ok (GenDecision.search (trials.filter (fun t =>
          decide (my_id / ctx.ensemble_spec.adaptive_search.increase_width_every *
            ctx.ensemble_spec.adaptive_search.increase_width_every ≤ t.id))))
      else
        Except.ok (GenDecision.search trials)
    else if is_intermixed_ensemble_search ctx.ensemble_spec then
      if ctx.ensemble_spec.intermixed_search.try_ensembling_every = 0 then
        Except.error "ZeroDivisionError: integer division or modulo by zero"
      else if my_id % ctx.ensemble_spec.intermixed_search.try_ensembling_every = 0 then
        Except.ok GenDecision.stopSearching
      else
        Except.ok (GenDecision.search (trials.filter (fun t =>
          decide (t.id % ctx.ensemble_spec.intermixed_search.try_ensembling_every ≠ 0))))
    else
      Except.error ("Unknown ensemble search type " ++
        ensembleSearchTypeName ctx.ensemble_spec.ensemble_search_type)
  else if trial_mode = TrialMode.DISTILLATION
      && is_intermixed_ensemble_search ctx.ensemble_spec then
    match ctx.get_best_k (get_intermixed_trials trials
        ctx.ensemble_spec.intermixed_search.try_ensembling_every
        ctx.user_suggestions.length) with
    | some best_trial =>
      if ctx.get_number_of_towers best_trial = 1 then
        Except.ok (GenDecision.distill best_trial)
      else
        Except.error
          "assertion failed: best trial did not record exactly one tower"
    | none => Except.ok (GenDecision.search trials)
  else
    Except.ok (GenDecision.search trials)

/-! Theorems about the trial scheduler. -/

/-- C2: for every trial with my_id at most the number of user suggestions,
the scheduler returns exactly the my_id-th user-supplied architecture
(1-indexed) with prev_trial = -1, so no snapshot transfer is ever applied
(no parent trial, fresh weights), regardless of trial history, trial mode
or ensemble configuration. -/
theorem user_suggestion_priority (ctx : GenContext) (trial_mode : TrialMode)
    (my_id : Nat) (trials : List Trial)
    (_hpos : 1 ≤ my_id) (hle : my_id ≤ ctx.user_suggestions.length) :
    first_time_chief_generate ctx trial_mode my_id trials =
      Except.ok (GenDecision.suggested
        ((ctx.user_suggestions.getD (my_id - 1) (UserSuggestion.mk [])).architecture)
        (-1)) ∧
    appliesSnapshot ctx.transfer_learning_type (-1) = false := by
  constructor
  · simp [first_time_chief_generate, hle, get_user_suggestion,
      fix_architecture_order]
  · cases ctx.transfer_learning_type <;> simp [appliesSnapshot]

/-- Witness for C2 at a concrete configuration with two sugggested
architectures, trial id 2 and a nonempty history. -/
theorem user_suggestion_priority_witness :
    first_time_chief_generate
      (GenContext.mk
        [UserSuggestion.mk [BlockType.FIXED_OUTPUT_FULLY_CONNECTED_128],
         UserSuggestion.mk [BlockType.FLATTEN]]
        (EnsembleSpec.mk EnsembleSearchType.INTERMIXED
          (AdaptiveSearchSpec.mk 2) (IntermixedSearchSpec.mk 3))
        TransferLearningType.SNAPSHOT (fun _ => none) (fun _ => 1))
      TrialMode.ENSEMBLE_SEARCH 2 [Trial.mk 1 "t1"] =
      Except.ok (GenDecision.suggested
        (([UserSuggestion.mk [BlockType.FIXED_OUTPUT_FULLY_CONNECTED_128],
           UserSuggestion.mk [BlockType.FLATTEN]].getD (2 - 1)
            (UserSuggestion.mk [])).architecture) (-1)) ∧
    appliesSnapshot TransferLearningType.SNAPSHOT (-1) = false :=
  user_suggestion_priority
    (GenContext.mk
      [UserSuggestion.mk [BlockType.FIXED_OUTPUT_FULLY_CONNECTED_128],
       UserSuggestion.mk [BlockType.FLATTEN]]
      (EnsembleSpec.mk EnsembleSearchType.INTERMIXED
        (AdaptiveSearchSpec.mk 2) (IntermixedSearchSpec.mk 3))
      TransferLearningType.SNAPSHOT (fun _ => none) (fun _ => 1))
    TrialMode.ENSEMBLE_SEARCH 2 [Trial.mk 1 "t1"] (by decide) (by decide)

/-- C3: for every ENSEMBLE_SEARCH trial under INTERMIXED ensembling with a
positive try_ensembling_every, an exploitation trial (my_id divisible by
every) returns stopSearching (zero towers recorded), and an exploration
trial invokes the search algorithm with relevant trials exactly the
history members whose id is not divisible by every. -/
theorem intermixed_ensemble_search_dispatch (ctx : GenContext) (my_id : Nat)
    (trials : List Trial)
    (hsug : ctx.user_suggestions.length < my_id)
    (htype : ctx.ensemble_spec.ensemble_search_type =
      EnsembleSearchType.INTERMIXED)
    (hevery : 0 < ctx.ensemble_spec.intermixed_search.try_ensembling_every) :
    (my_id % ctx.ensemble_spec.intermixed_search.try_ensembling_every = 0 →
      first_time_chief_generate ctx TrialMode.ENSEMBLE_SEARCH my_id trials =
        Except.ok GenDecision.stopSearching ∧
      numTowersRecorded GenDecision.stopSearching = 0) ∧
    (my_id % ctx.ensemble_spec.intermixed_search.try_ensembling_every ≠ 0 →
      first_time_chief_generate ctx TrialMode.ENSEMBLE_SEARCH my_id trials =
        Except.ok (GenDecision.search (trials.filter (fun t =>
          decide (t.id %
            ctx.ensemble_spec.intermixed_search.try_ensembling_every ≠ 0))))) := by
  have hns : ¬ my_id ≤ ctx.user_suggestions.length := by omega
  have hzero : ¬ ctx.ensemble_spec.intermixed_search.try_ensembling_every = 0 := by
    omega
  constructor
  · intro hmod
    refine ⟨?_, rfl⟩
    simp [first_time_chief_generate, hns, is_nonadaptive_ensemble_search,
      is_adaptive_ensemble_search, is_residual_ensemble_search,
      is_intermixed_ensemble_search, htype, hzero, hmod]
  · intro hmod
    simp [first_time_chief_generate, hns, is_nonadaptive_ensemble_search,
      is_adaptive_ensemble_search, is_residual_ensemble_search,
      is_intermixed_ensemble_search, htype, hzero, hmod]

/-- Concrete scheduler context with INTERMIXED ensembling, no user
suggestions and try_ensembling_every = 3, for witnesses. -/
def exCtxIntermixed : GenContext :=
  GenContext.mk []
    (EnsembleSpec.mk EnsembleSearchType.INTERMIXED
      (AdaptiveSearchSpec.mk 2) (IntermixedSearchSpec.mk 3))
    TransferLearningType.NO_TRANSFER (fun _ => none) (fun _ => 1)

/-- Concrete trial history with ids 1, 3, 4, 5, for witnesses. -/
def exTrials : List Trial :=
  [Trial.mk 1 "t1", Trial.mk 3 "t3", Trial.mk 4 "t4", Trial.mk 5 "t5"]

/-- Witness for C3 at exploitation trial 6 under every = 3: searching is
skipped and zero towers are recorded. -/
theorem intermixed_ensemble_search_dispatch_witness :
    first_time_chief_generate exCtxIntermixed TrialMode.ENSEMBLE_SEARCH 6
        exTrials =
      Except.ok GenDecision.stopSearching ∧
    numTowersRecorded GenDecision.stopSearching = 0 :=
  (intermixed_ensemble_search_dispatch exCtxIntermixed 6 exTrials
    (by decide) (by decide) (by decide)).1 (by decide)

/-- C4: for every ENSEMBLE_SEARCH trial under ADAPTIVE or RESIDUAL
ensembling, the search algorithm is invoked with relevant trials exactly
the history members whose id is at least floor(my_id / every) * every
when every is positive, and with the full history when every is 0. -/
theorem adaptive_residual_relevant_trials (ctx : GenContext) (my_id : Nat)
    (trials : List Trial)
    (hsug : ctx.user_suggestions.length < my_id)
    (htype : ctx.ensemble_spec.ensemble_search_type =
        EnsembleSearchType.ADAPTIVE ∨
      ctx.ensemble_spec.ensemble_search_type = EnsembleSearchType.RESIDUAL) :
    (0 < ctx.ensemble_spec.adaptive_search.increase_width_every →
      first_time_chief_generate ctx TrialMode.ENSEMBLE_SEARCH my_id trials =
        Except.ok (GenDecision.search (trials.filter (fun t =>
          decide (my_id / ctx.ensemble_spec.adaptive_search.increase_width_every *
            ctx.ensemble_spec.adaptive_search.increase_width_every ≤ t.id))))) ∧
    (ctx.ensemble_spec.adaptive_search.increase_width_every = 0 →
      first_time_chief_generate ctx TrialMode.ENSEMBLE_SEARCH my_id trials =
        Except.ok (GenDecision.search trials)) := by
  have hns : ¬ my_id ≤ ctx.user_suggestions.length := by omega
  constructor
  · intro hevery
    have hnz : ctx.ensemble_spec.adaptive_search.increase_width_every ≠ 0 := by
      omega
    rcases htype with h | h <;>
      simp [first_time_chief_generate, hns, is_nonadaptive_ensemble_search,
        is_adaptive_ensemble_search, is_residual_ensemble_search, h, hnz]
  · intro hevery
    rcases htype with h | h <;>
      simp [first_time_chief_generate, hns, is_nonadaptive_ensemble_search,
        is_adaptive_ensemble_search, is_residual_ensemble_search, h, hevery]

/-- Concrete scheduler context with ADAPTIVE ensembling, no user
suggestions and increase_width_every = 2, for witnesses. -/
def exCtxAdaptive : GenContext :=
  GenContext.mk []
    (EnsembleSpec.mk EnsembleSearchType.ADAPTIVE
      (AdaptiveSearchSpec.mk 2) (IntermixedSearchSpec.mk 3))
    TransferLearningType.NO_TRANSFER (fun _ => none) (fun _ => 1)

/-- Witness for C4 at trial 5 under every = 2: the window keeps exactly
the trials with id at least 4. -/
theorem adaptive_residual_relevant_trials_witness :
    first_time_chief_generate exCtxAdaptive TrialMode.ENSEMBLE_SEARCH 5
        exTrials =
      Except.ok (GenDecision.search [Trial.mk 4 "t4", Trial.mk 5 "t5"]) :=
  Eq.trans
    ((adaptive_residual_relevant_trials exCtxAdaptive 5 exTrials
      (by decide) (Or.inl (by decide))).1 (by decide))
    (by rfl)

/-- C5: for every DISTILLATION trial under INTERMIXED ensembling, the
relevant trials are the intermixed modulo rule with user-suggestion trial
ids excluded; when the external ranking collaborator returns a best
relevant trial, its single tower is cloned into the current trial
(with a fatal assertion unless that trial recorded exactly one tower),
and when it returns none the scheduler falls through to a fresh search
over the entire trial history. -/
theorem distillation_intermixed_clone (ctx : GenContext) (my_id : Nat)
    (trials : List Trial)
    (hsug : ctx.user_suggestions.length < my_id)
    (htype : ctx.ensemble_spec.ensemble_search_type =
      EnsembleSearchType.INTERMIXED)
    (_hevery : 0 < ctx.ensemble_spec.intermixed_search.try_ensembling_every) :
    (∀ best : Trial,
      ctx.get_best_k (get_intermixed_trials trials
          ctx.ensemble_spec.intermixed_search.try_ensembling_every
          ctx.user_suggestions.length) = some best →
      (ctx.get_number_of_towers best = 1 →
        first_time_chief_generate ctx TrialMode.DISTILLATION my_id trials =
          Except.ok (GenDecision.distill best)) ∧
      (ctx.get_number_of_towers best ≠ 1 →
        first_time_chief_generate ctx TrialMode.DISTILLATION my_id trials =
          Except.error
            "assertion failed: best trial did not record exactly one tower")) ∧
    (ctx.get_best_k (get_intermixed_trials trials
        ctx.ensemble_spec.intermixed_search.try_ensembling_every
        ctx.user_suggestions.length) = none →
      first_time_chief_generate ctx TrialMode.DISTILLATION my_id trials =
        Except.ok (GenDecision.search trials)) := by
  have hns : ¬ my_id ≤ ctx.user_suggestions.length := by omega
  constructor
  · intro best hbest
    constructor
    · intro hone
      simp [first_time_chief_generate, hns, is_intermixed_ensemble_search,
        htype, hbest, hone]
    · intro hone
      simp [first_time_chief_generate, hns, is_intermixed_ensemble_search,
        htype, hbest, hone]
  · intro hnone
    simp [first_time_chief_generate, hns, is_intermixed_ensemble_search,
      htype, hnone]

/-- Concrete scheduler context for the C5 witness: intermixed ensembling
with every = 3, one user suggestion, a ranking collaborator that returns
the head of the relevant trials, and a registry holding one tower per
trial. -/
def exCtxDistill : GenContext :=
  GenContext.mk [UserSuggestion.mk [BlockType.FLATTEN]]
    (EnsembleSpec.mk EnsembleSearchType.INTERMIXED
      (AdaptiveSearchSpec.mk 2) (IntermixedSearchSpec.mk 3))
    TransferLearningType.NO_TRANSFER (fun ts => ts.head?) (fun _ => 1)

/-- Witness for C5 at trial 7: the relevant trials are ids 4 and 5 (id 1
is a user suggestion, id 3 an exploitation trial), the collaborator picks
trial 4 whose registry holds one tower, and the scheduler clones it. -/
theorem distillation_intermixed_clone_witness :
    first_time_chief_generate exCtxDistill TrialMode.DISTILLATION 7 exTrials =
      Except.ok (GenDecision.distill (Trial.mk 4 "t4")) :=
  ((distillation_intermixed_clone exCtxDistill 7 exTrials
      (by decide) (by decide) (by decide)).1
    (Trial.mk 4 "t4") (by rfl)).1 (by rfl)

/-- C8: for every ENSEMBLE_SEARCH trial past the user suggestions whose
ensemble search type is none of NON_ADAPTIVE, ADAPTIVE, RESIDUAL or
INTERMIXED, the scheduler raises the unsupported-configuration error
naming the offending tag instead of returning any decision. -/
theorem unknown_ensemble_type_error (ctx : GenContext) (my_id : Nat)
    (trials : List Trial)
    (hsug : ctx.user_suggestions.length < my_id)
    (h1 : ctx.ensemble_spec.ensemble_search_type ≠
      EnsembleSearchType.NON_ADAPTIVE)
    (h2 : ctx.ensemble_spec.ensemble_search_type ≠ EnsembleSearchType.ADAPTIVE)
    (h3 : ctx.ensemble_spec.ensemble_search_type ≠ EnsembleSearchType.RESIDUAL)
    (h4 : ctx.ensemble_spec.ensemble_search_type ≠
      EnsembleSearchType.INTERMIXED) :
    first_time_chief_generate ctx TrialMode.ENSEMBLE_SEARCH my_id trials =
      Except.error ("Unknown ensemble search type " ++
        ensembleSearchTypeName ctx.ensemble_spec.ensemble_search_type) := by
  have hns : ¬ my_id ≤ ctx.user_suggestions.length := by omega
  cases hty : ctx.ensemble_spec.ensemble_search_type
  case NON_ADAPTIVE => exact absurd hty h1
  case ADAPTIVE => exact absurd hty h2
  case RESIDUAL => exact absurd hty h3
  case INTERMIXED => exact absurd hty h4
  case NONE_SEARCH =>
    simp [first_time_chief_generate, hns, is_nonadaptive_ensemble_search,
      is_adaptive_ensemble_search, is_residual_ensemble_search,
      is_intermixed_ensemble_search, hty]

/-- Concrete scheduler context with the unset ensemble search tag, for
the C8 witness. -/
def exCtxNone : GenContext :=
  GenContext.mk []
    (EnsembleSpec.mk EnsembleSearchType.NONE_SEARCH
      (AdaptiveSearchSpec.mk 2) (IntermixedSearchSpec.mk 3))
    TransferLearningType.NO_TRANSFER (fun _ => none) (fun _ => 1)

/-- Witness for C8 at trial 1 with the unset tag. -/
theorem unknown_ensemble_type_error_witness :
    first_time_chief_generate exCtxNone TrialMode.ENSEMBLE_SEARCH 1 exTrials =
      Except.error ("Unknown ensemble search type " ++
        ensembleSearchTypeName exCtxNone.ensemble_spec.ensemble_search_type) :=
  unknown_ensemble_type_error exCtxNone 1 exTrials
    (by decide) (by decide) (by decide) (by decide) (by decide)

/-! Embedding of the multi-task model-spec assembler (task manager).
The task manager source is not under src; only task_manager_test.py is,
so the definitions below are modelled from the specification with the
tests as the authority on the observable behavior. -/

/-- Estimator mode keys. -/
inductive ModeKeys where
  | TRAIN
  | EVAL
  | PREDICT
deriving DecidableEq

/-- Per-task configuration (one multi_task_spec entry). -/
structure TaskConfig where
  label_name : String
  number_of_classes : Nat
  weight_feature_name : Option String
  weight_is_a_feature : Bool
deriving DecidableEq

/-- The slice of the PhoenixSpec the task manager reads: the task list
(empty means single-task mode) and the merge-losses switch. -/
structure TaskSpecConfig where
  multi_task_spec : List TaskConfig
  merge_losses_of_multitask : Bool
deriving DecidableEq

/-- Learning-rate specification: fields are independently optional and
presence, not a mode flag, selects which optimizer transforms activate. -/
structure LearningRateSpec where
  learning_rate : Rat
  l2_regularization : Option Rat
  gradient_max_norm : Option Rat
  exponential_decay_steps : Option Nat
  exponential_decay_rate : Option Rat
deriving DecidableEq

/-- Opaque tensor handle: the assembler only routes tensors, never
computes with them. -/
structure Tensor where
  tensor_id : String
deriving DecidableEq

/-- The labels argument: a single tensor in single-task mode, a mapping
from label name (plus possible weight keys) in multi-task mode. -/
inductive Labels where
  | single (t : Tensor)
  | multi (m : List (String × Tensor))
deriving DecidableEq

/-- Key lookup in a string-keyed mapping. -/
def lookupKey (m : List (String × Tensor)) (k : String) : Option Tensor :=
  (m.find? (fun p => p.fst == k)).map Prod.snd

/-- Named nodes the assembler can add to the computation graph; the tests
observe construction by scanning graph node names.  The label argument is
the namespacing scope, empty when un-namespaced. -/
inductive GraphNode where
  | l2_weight_loss (label : String)
  | clip_by_global_norm (label : String)
  | exponential_decay (label : String)
  | combined_gradients
  | projection (label : String)
deriving DecidableEq

/-- Modelled from the spec: the OptimizerPolicyChain of the task manager
is not under src.  Ordered, independently optional transforms: the L2
weight loss appears iff l2_regularization is set, clipping iff
gradient_max_norm is set, exponential decay iff both decay fields are
set. -/
def optimizerChainNodes (label : String) (lrs : LearningRateSpec) :
    List GraphNode :=
  (if lrs.l2_regularization.isSome then [GraphNode.l2_weight_loss label]
    else []) ++
  (if lrs.gradient_max_norm.isSome then [GraphNode.clip_by_global_norm label]
    else []) ++
  (if lrs.exponential_decay_steps.isSome && lrs.exponential_decay_rate.isSome
    then [GraphNode.exponential_decay label] else [])

/-- Loss values, abstractly: one per-task loss keyed by label, or the
aggregate of several. -/
inductive LossExpr where
  | taskLoss (label : String)
  | aggregate (labels : List String)
deriving DecidableEq

/-- The produced model specification: the optional aggregate loss and the
ordered key list of the predictions mapping (values are opaque). -/
structure ModelSpec where
  loss : Option LossExpr
  predictions : List String
deriving DecidableEq

/-- The three prediction kinds every task emits. -/
def predictionKinds : List String :=
  ["predictions", "probabilities", "log_probabilities"]

/-- Modelled from the spec: per-example weight resolution of the task
manager is not under src.  If weight_is_a_feature, weight_feature_name is
looked up in the features mapping, otherwise in the labels mapping;
absence from the expected mapping is a KeyError with no fallback to the
other mapping. -/
def get_task_weight (cfg : TaskConfig) (features : List (String × Tensor))
    (label_map : List (String × Tensor)) : Except String (Option Tensor) :=
  match cfg.weight_feature_name with
  | none => Except.ok none
  | some w =>
    if cfg.weight_is_a_feature then
      match lookupKey features w with
      | some v => Except.ok (some v)
      | none => Except.error ("KeyError: " ++ w)
    else
      match lookupKey label_map w with
      | some v => Except.ok (some v)
      | none => Except.error ("KeyError: " ++ w)

/-- Modelled from the spec: the per-task builder of the task manager is
not under src.  One task yields a projection node exactly when the logits
trailing dimension differs from number_of_classes
(task_manager_test.py:718-770), resolves its weight, and emits the three
prediction kinds namespaced under its label name. -/
def buildTask (cfg : TaskConfig) (logits_dimension : Nat)
    (features label_map : List (String × Tensor)) :
    Except String (List String × List GraphNode) :=
  match get_task_weight cfg features label_map with
  | Except.error e => Except.error e
  | Except.ok _ =>
    Except.ok (predictionKinds.map (fun k => k ++ "/" ++ cfg.label_name),
      if logits_dimension ≠ cfg.number_of_classes then
        [GraphNode.projection cfg.label_name] else [])

/-- Per-task assembly over the whole task list, propagating the first
KeyError. -/
def buildAllTasks (tasks : List TaskConfig) (logits_dimension : Nat)
    (features label_map : List (String × Tensor)) :
    Except String (List String × List GraphNode) :=
  match tasks with
  | [] => Except.ok ([], [])
  | cfg :: rest =>
    match buildTask cfg logits_dimension features label_map with
    | Except.error e => Except.error e
    | Except.ok (ks, ns) =>
      match buildAllTasks rest logits_dimension features label_map with
      | Except.error e => Except.error e
      | Except.ok (ks2, ns2) => Except.ok (ks ++ ks2, ns ++ ns2)

/-- The mapping the per-task weight lookup uses when the weight is not a
feature: the labels dictionary (empty for a single bare-tensor label). -/
def labelMapOf : Labels → List (String × Tensor)
  | Labels.single _ => []
  | Labels.multi m => m

/-- Modelled from the spec: TaskManager.create_model_spec is not under
src (only task_manager_test.py).  Single implicit task when
multi_task_spec is empty, otherwise one task per config; the
un-namespaced prediction kinds are exposed alongside the per-task
namespaced keys (task_manager_test.py:485-496 pins 3 * (1 + n) keys with
the un-namespaced kinds present in multi-task mode); the optimizer chain
runs only when training, once un-namespaced on the merged loss under
merge_losses_of_multitask (with a combined-gradient aggregation node)
and otherwise once per task namespaced by its label; the loss is None
exactly in PREDICT mode. -/
def create_model_spec (cfg : TaskSpecConfig) (lrs : LearningRateSpec)
    (mode : ModeKeys) (features : List (String × Tensor)) (labels : Labels)
    (logits_dimension : Nat) : Except String (ModelSpec × List GraphNode) :=
  if cfg.multi_task_spec.isEmpty then
    Except.ok
      (ModelSpec.mk
        (if mode = ModeKeys.PREDICT then none else some (LossExpr.taskLoss ""))
        predictionKinds,
       if mode = ModeKeys.TRAIN then optimizerChainNodes "" lrs else [])
  else
    match buildAllTasks cfg.multi_task_spec logits_dimension features
        (labelMapOf labels) with
    | Except.error e => Except.error e
    | Except.ok (task_keys, proj_nodes) =>
      Except.ok
        (ModelSpec.mk
          (if mode = ModeKeys.PREDICT then none
           else some (LossExpr.aggregate
             (cfg.multi_task_spec.map TaskConfig.label_name)))
          (predictionKinds ++ task_keys),
         proj_nodes ++
           (if mode = ModeKeys.TRAIN then
              if cfg.merge_losses_of_multitask then
                GraphNode.combined_gradients :: optimizerChainNodes "" lrs
              else
                (cfg.multi_task_spec.map
                  (fun t => optimizerChainNodes t.label_name lrs)).flatten
            else []))

/-- A successful per-task build emits the three prediction kinds
namespaced under the task's label, and at most one projection node. -/
theorem buildTask_ok_shape (cfg : TaskConfig) (d : Nat)
    (f lm : List (String × Tensor)) (ks : List String) (ns : List GraphNode)
    (h : buildTask cfg d f lm = Except.ok (ks, ns)) :
    ks = predictionKinds.map (fun k => k ++ "/" ++ cfg.label_name) ∧
    (ns = [] ∨ ns = [GraphNode.projection cfg.label_name]) := by
  unfold buildTask at h
  cases hw : get_task_weight cfg f lm with
  | error e => rw [hw] at h; exact absurd h (by simp)
  | ok w =>
    rw [hw] at h
    simp only [Except.ok.injEq, Prod.mk.injEq] at h
    obtain ⟨h1, h2⟩ := h
    refine ⟨h1.symm, ?_⟩
    by_cases hd : d ≠ cfg.number_of_classes
    · right; rw [← h2]; simp [hd]
    · left; rw [← h2]; simp [hd]

/-- A successful multi-task build emits exactly three prediction keys per
task, containing each task's namespaced kinds, and only projection
nodes. -/
theorem buildAllTasks_ok_shape (tasks : List TaskConfig) (d : Nat)
    (f lm : List (String × Tensor)) (ks : List String) (ns : List GraphNode)
    (h : buildAllTasks tasks d f lm = Except.ok (ks, ns)) :
    ks.length = 3 * tasks.length ∧
    (∀ t ∈ tasks, ∀ k ∈ predictionKinds, (k ++ "/" ++ t.label_name) ∈ ks) ∧
    (∀ n ∈ ns, ∃ label, n = GraphNode.projection label) := by
  induction tasks generalizing ks ns with
  | nil =>
    unfold buildAllTasks at h
    simp only [Except.ok.injEq, Prod.mk.injEq] at h
    obtain ⟨h1, h2⟩ := h
    subst h1; subst h2
    simp
  | cons cfg rest ih =>
    unfold buildAllTasks at h
    cases hb : buildTask cfg d f lm with
    | error e => rw [hb] at h; exact absurd h (by simp)
    | ok p =>
      obtain ⟨ks1, ns1⟩ := p
      rw [hb] at h
      cases hr : buildAllTasks rest d f lm with
      | error e => rw [hr] at h; exact absurd h (by simp)
      | ok q =>
        obtain ⟨ks2, ns2⟩ := q
        rw [hr] at h
        simp only [Except.ok.injEq, Prod.mk.injEq] at h
        obtain ⟨h1, h2⟩ := h
        subst h1; subst h2
        obtain ⟨hk1, hn1⟩ := buildTask_ok_shape cfg d f lm ks1 ns1 hb
        obtain ⟨hl2, hm2, hp2⟩ := ih ks2 ns2 hr
        refine ⟨?_, ?_, ?_⟩
        · simp [hk1, hl2, predictionKinds]
          omega
        · intro t ht k hk
          simp only [List.mem_cons] at ht
          rcases ht with ht | ht
          · subst ht
            exact List.mem_append_left _ (hk1 ▸ List.mem_map_of_mem _ hk)
          · exact List.mem_append_right _ (hm2 t ht k hk)
        · intro n hn
          rcases List.mem_append.mp hn with hn | hn
          · rcases hn1 with h0 | h0 <;> subst h0
            · exact absurd hn (by simp)
            · simp only [List.mem_singleton] at hn
              exact ⟨cfg.label_name, hn⟩
          · exact hp2 n hn

/-- A task whose per-task build raises a KeyError makes the whole
multi-task build raise. -/
theorem buildAllTasks_error_of_mem (tasks : List TaskConfig) (d : Nat)
    (f lm : List (String × Tensor)) (cfg : TaskConfig) (e : String)
    (hmem : cfg ∈ tasks) (herr : buildTask cfg d f lm = Except.error e) :
    ∃ e2, buildAllTasks tasks d f lm = Except.error e2 := by
  induction tasks with
  | nil => exact absurd hmem (by simp)
  | cons c rest ih =>
    simp only [List.mem_cons] at hmem
    rcases hmem with hmem | hmem
    · subst hmem
      exact ⟨e, by simp [buildAllTasks, herr]⟩
    · unfold buildAllTasks
      cases hb : buildTask c d f lm with
      | error e1 => exact ⟨e1, rfl⟩
      | ok p =>
        obtain ⟨ks1, ns1⟩ := p
        obtain ⟨e2, he2⟩ := ih hmem
        exact ⟨e2, by simp [he2]⟩

/-- The two-task configuration of task_manager_test.py:424-437 (labels
label1 and label2, 10 classes each, losses not merged). -/
def exTwoTaskCfg : TaskSpecConfig :=
  TaskSpecConfig.mk
    [TaskConfig.mk "label1" 10 none false, TaskConfig.mk "label2" 10 none false]
    false

/-- The l2-regularization learning-rate spec of the tests. -/
def exLrs : LearningRateSpec :=
  LearningRateSpec.mk (1 / 1000) (some (1 / 100)) none none none

/-- The features mapping of the tests. -/
def exFeatures : List (String × Tensor) := [("x", Tensor.mk "zeros")]

/-- The two-task labels mapping of the tests. -/
def exLabelsMulti : Labels :=
  Labels.multi [("label1", Tensor.mk "ones1"), ("label2", Tensor.mk "ones2")]

/-- The model spec the assembler produces for the two-task test
configuration. -/
def exTwoTaskModelSpec : ModelSpec :=
  ModelSpec.mk (some (LossExpr.aggregate ["label1", "label2"]))
    ["predictions", "probabilities", "log_probabilities",
     "predictions/label1", "probabilities/label1", "log_probabilities/label1",
     "predictions/label2", "probabilities/label2", "log_probabilities/label2"]

/-- C1 counterexample: at the two-task test configuration the predictions
mapping has 9 entries, not 3 * max(1, 2) = 6, and the un-namespaced
predictions key is exposed although there are two tasks
(task_manager_test.py:485-496). -/
theorem predictions_cardinality_counterexample :
    create_model_spec exTwoTaskCfg exLrs ModeKeys.TRAIN exFeatures
        exLabelsMulti 10 =
      Except.ok (exTwoTaskModelSpec,
        [GraphNode.l2_weight_loss "label1", GraphNode.l2_weight_loss "label2"]) ∧
    exTwoTaskModelSpec.predictions.length = 9 ∧
    exTwoTaskModelSpec.predictions.length ≠
      3 * max 1 exTwoTaskCfg.multi_task_spec.length ∧
    "predictions" ∈ exTwoTaskModelSpec.predictions := by
  refine ⟨by rfl, by decide, by decide, by decide⟩

/-- C1 (amended): every model specification the aggregator produces has
exactly 3 prediction entries in single-task mode and 3 * (n + 1) entries
for n configured tasks; the three un-namespaced kinds are exposed in both
modes, and each task additionally gets its three kinds namespaced under
its label. -/
theorem predictions_cardinality_amended (cfg : TaskSpecConfig)
    (lrs : LearningRateSpec) (mode : ModeKeys)
    (features : List (String × Tensor)) (labels : Labels) (d : Nat)
    (ms : ModelSpec) (g : List GraphNode)
    (hok : create_model_spec cfg lrs mode features labels d =
      Except.ok (ms, g)) :
    ms.predictions.length =
      (if cfg.multi_task_spec.isEmpty then 3
       else 3 * (cfg.multi_task_spec.length + 1)) ∧
    "predictions" ∈ ms.predictions ∧
    "probabilities" ∈ ms.predictions ∧
    "log_probabilities" ∈ ms.predictions ∧
    (∀ t ∈ cfg.multi_task_spec, ∀ k ∈ predictionKinds,
      (k ++ "/" ++ t.label_name) ∈ ms.predictions) := by
  unfold create_model_spec at hok
  by_cases hempty : cfg.multi_task_spec.isEmpty
  · rw [if_pos hempty] at hok
    injection hok with hpair
    obtain ⟨h1, h2⟩ := Prod.mk.inj hpair
    subst h1
    have hnil : cfg.multi_task_spec = [] := List.isEmpty_iff.mp hempty
    refine ⟨?_, by simp [predictionKinds], by simp [predictionKinds],
      by simp [predictionKinds], ?_⟩
    · rw [if_pos hempty]
      simp [predictionKinds]
    · intro t ht
      rw [hnil] at ht
      exact absurd ht (by simp)
  · rw [if_neg hempty] at hok
    cases hb : buildAllTasks cfg.multi_task_spec d features
        (labelMapOf labels) with
    | error e => rw [hb] at hok; exact absurd hok (by simp)
    | ok p =>
      obtain ⟨task_keys, proj_nodes⟩ := p
      rw [hb] at hok
      injection hok with hpair
      obtain ⟨h1, h2⟩ := Prod.mk.inj hpair
      subst h1
      obtain ⟨hlen, hmem, _⟩ := buildAllTasks_ok_shape _ _ _ _ _ _ hb
      refine ⟨?_, by simp [predictionKinds], by simp [predictionKinds],
        by simp [predictionKinds], ?_⟩
      · rw [if_neg hempty]
        show (predictionKinds ++ task_keys).length =
          3 * (cfg.multi_task_spec.length + 1)
        rw [List.length_append]
        simp only [predictionKinds, List.length_cons, List.length_nil]
        omega
      · intro t ht k hk
        show (k ++ "/" ++ t.label_name) ∈ predictionKinds ++ task_keys
        exact List.mem_append_right _ (hmem t ht k hk)

/-- Witness for the amended C1 at the two-task test configuration: 9 keys
with the un-namespaced and the label1-namespaced predictions key. -/
theorem predictions_cardinality_amended_witness :
    exTwoTaskModelSpec.predictions.length =
      (if exTwoTaskCfg.multi_task_spec.isEmpty then 3
       else 3 * (exTwoTaskCfg.multi_task_spec.length + 1)) ∧
    "predictions" ∈ exTwoTaskModelSpec.predictions ∧
    "probabilities" ∈ exTwoTaskModelSpec.predictions ∧
    "log_probabilities" ∈ exTwoTaskModelSpec.predictions ∧
    ("predictions" ++ "/" ++
      (TaskConfig.mk "label1" 10 none false).label_name) ∈
      exTwoTaskModelSpec.predictions :=
  have h := predictions_cardinality_amended exTwoTaskCfg exLrs ModeKeys.TRAIN
    exFeatures exLabelsMulti 10 exTwoTaskModelSpec
    [GraphNode.l2_weight_loss "label1", GraphNode.l2_weight_loss "label2"]
    (by rfl)
  And.intro h.1 (And.intro h.2.1 (And.intro h.2.2.1 (And.intro h.2.2.2.1
    (h.2.2.2.2 (TaskConfig.mk "label1" 10 none false) (by decide)
      "predictions" (by decide)))))

/-- Membership of each optimizer transform node in the chain is exactly
the presence of its triggering LearningRateSpec field. -/
theorem optimizerChainNodes_mem (label : String) (lrs : LearningRateSpec) :
    ((GraphNode.l2_weight_loss label ∈ optimizerChainNodes label lrs) ↔
      lrs.l2_regularization.isSome = true) ∧
    ((GraphNode.clip_by_global_norm label ∈ optimizerChainNodes label lrs) ↔
      lrs.gradient_max_norm.isSome = true) ∧
    ((GraphNode.exponential_decay label ∈ optimizerChainNodes label lrs) ↔
      (lrs.exponential_decay_steps.isSome = true ∧
        lrs.exponential_decay_rate.isSome = true)) := by
  obtain ⟨lr, l2, gm, es, er⟩ := lrs
  cases l2 <;> cases gm <;> cases es <;> cases er <;>
    simp [optimizerChainNodes]

/-- C6: in TRAIN mode with a single implicit task, exactly the optimizer
transforms whose triggering LearningRateSpec field is set appear in the
computation graph: the L2 weight loss iff l2_regularization is set, the
global-norm clipping iff gradient_max_norm is set, the exponential decay
iff both decay fields are set; an absent field leaves no trace of its
transform. -/
theorem train_mode_transform_presence (cfg : TaskSpecConfig)
    (lrs : LearningRateSpec) (features : List (String × Tensor))
    (labels : Labels) (d : Nat) (ms : ModelSpec) (g : List GraphNode)
    (hsingle : cfg.multi_task_spec = [])
    (hok : create_model_spec cfg lrs ModeKeys.TRAIN features labels d =
      Except.ok (ms, g)) :
    ((GraphNode.l2_weight_loss "" ∈ g) ↔
      lrs.l2_regularization.isSome = true) ∧
    ((GraphNode.clip_by_global_norm "" ∈ g) ↔
      lrs.gradient_max_norm.isSome = true) ∧
    ((GraphNode.exponential_decay "" ∈ g) ↔
      (lrs.exponential_decay_steps.isSome = true ∧
        lrs.exponential_decay_rate.isSome = true)) := by
  have hempty : cfg.multi_task_spec.isEmpty := by simp [hsingle]
  unfold create_model_spec at hok
  rw [if_pos hempty] at hok
  injection hok with hpair
  obtain ⟨h1, h2⟩ := Prod.mk.inj hpair
  have hg : g = optimizerChainNodes "" lrs := by
    rw [← h2]
    simp
  rw [hg]
  exact optimizerChainNodes_mem "" lrs

/-- The single-implicit-task configuration of the tests. -/
def exSingleCfg : TaskSpecConfig := TaskSpecConfig.mk [] false

/-- The single-task labels tensor of the tests. -/
def exLabelsSingle : Labels := Labels.single (Tensor.mk "ones")

/-- Witness for C6 at the l2-regularization test configuration. -/
theorem train_mode_transform_presence_witness :
    ((GraphNode.l2_weight_loss "" ∈ optimizerChainNodes "" exLrs) ↔
      exLrs.l2_regularization.isSome = true) ∧
    ((GraphNode.clip_by_global_norm "" ∈ optimizerChainNodes "" exLrs) ↔
      exLrs.gradient_max_norm.isSome = true) ∧
    ((GraphNode.exponential_decay "" ∈ optimizerChainNodes "" exLrs) ↔
      (exLrs.exponential_decay_steps.isSome = true ∧
        exLrs.exponential_decay_rate.isSome = true)) :=
  train_mode_transform_presence exSingleCfg exLrs exFeatures exLabelsSingle 10
    (ModelSpec.mk (some (LossExpr.taskLoss "")) predictionKinds)
    (optimizerChainNodes "" exLrs) (by rfl) (by rfl)

/-- C7: for every configuration and merge-losses setting, the model
specification's loss is None exactly when the mode is PREDICT, and is a
concrete value in TRAIN and EVAL. -/
theorem loss_none_iff_predict (cfg : TaskSpecConfig)
    (lrs : LearningRateSpec) (mode : ModeKeys)
    (features : List (String × Tensor)) (labels : Labels) (d : Nat)
    (ms : ModelSpec) (g : List GraphNode)
    (hok : create_model_spec cfg lrs mode features labels d =
      Except.ok (ms, g)) :
    (mode = ModeKeys.PREDICT → ms.loss = none) ∧
    (mode ≠ ModeKeys.PREDICT → ∃ l, ms.loss = some l) := by
  unfold create_model_spec at hok
  by_cases hempty : cfg.multi_task_spec.isEmpty
  · rw [if_pos hempty] at hok
    injection hok with hpair
    obtain ⟨h1, h2⟩ := Prod.mk.inj hpair
    subst h1
    constructor
    · intro hm
      simp [hm]
    · intro hm
      exact ⟨LossExpr.taskLoss "", by simp [hm]⟩
  · rw [if_neg hempty] at hok
    cases hb : buildAllTasks cfg.multi_task_spec d features
        (labelMapOf labels) with
    | error e => rw [hb] at hok; exact absurd hok (by simp)
    | ok p =>
      obtain ⟨task_keys, proj_nodes⟩ := p
      rw [hb] at hok
      injection hok with hpair
      obtain ⟨h1, h2⟩ := Prod.mk.inj hpair
      subst h1
      constructor
      · intro hm
        simp [hm]
      · intro hm
        exact ⟨LossExpr.aggregate (cfg.multi_task_spec.map TaskConfig.label_name),
          by simp [hm]⟩

/-- Witness for C7 at the two-task PREDICT configuration: the produced
loss is None. -/
theorem loss_none_iff_predict_witness :
    (ModelSpec.mk none (exTwoTaskModelSpec.predictions)).loss = none :=
  (loss_none_iff_predict exTwoTaskCfg exLrs ModeKeys.PREDICT exFeatures
    exLabelsMulti 10 (ModelSpec.mk none (exTwoTaskModelSpec.predictions)) []
    (by rfl)).1 rfl

/-- C10: in EVAL or PREDICT mode, none of the three optimizer-shaping
transforms is added to the computation graph, for every LearningRateSpec
and every configuration, even when the triggering fields are set. -/
theorem eval_predict_no_transforms (cfg : TaskSpecConfig)
    (lrs : LearningRateSpec) (mode : ModeKeys)
    (features : List (String × Tensor)) (labels : Labels) (d : Nat)
    (ms : ModelSpec) (g : List GraphNode)
    (hmode : mode = ModeKeys.EVAL ∨ mode = ModeKeys.PREDICT)
    (hok : create_model_spec cfg lrs mode features labels d =
      Except.ok (ms, g)) :
    ∀ label : String,
      GraphNode.l2_weight_loss label ∉ g ∧
      GraphNode.clip_by_global_norm label ∉ g ∧
      GraphNode.exponential_decay label ∉ g := by
  have hmt : ¬ mode = ModeKeys.TRAIN := by
    rcases hmode with h | h <;> subst h <;> simp
  unfold create_model_spec at hok
  by_cases hempty : cfg.multi_task_spec.isEmpty
  · rw [if_pos hempty] at hok
    injection hok with hpair
    obtain ⟨h1, h2⟩ := Prod.mk.inj hpair
    have hg : g = [] := by
      rw [← h2]
      simp [hmt]
    subst hg
    intro label
    simp
  · rw [if_neg hempty] at hok
    cases hb : buildAllTasks cfg.multi_task_spec d features
        (labelMapOf labels) with
    | error e => rw [hb] at hok; exact absurd hok (by simp)
    | ok p =>
      obtain ⟨task_keys, proj_nodes⟩ := p
      rw [hb] at hok
      injection hok with hpair
      obtain ⟨h1, h2⟩ := Prod.mk.inj hpair
      have hg : g = proj_nodes := by
        rw [← h2]
        simp [hmt]
      subst hg
      obtain ⟨_, _, hproj⟩ := buildAllTasks_ok_shape _ _ _ _ _ _ hb
      intro label
      refine ⟨?_, ?_, ?_⟩ <;> intro hmem <;>
        obtain ⟨l2, hl2⟩ := hproj _ hmem <;> exact absurd hl2 (by simp)

/-- Witness for C10 at the two-task EVAL configuration with the l2 field
set: the produced graph holds no transform node for label1. -/
theorem eval_predict_no_transforms_witness :
    GraphNode.l2_weight_loss "label1" ∉ ([] : List GraphNode) ∧
    GraphNode.clip_by_global_norm "label1" ∉ ([] : List GraphNode) ∧
    GraphNode.exponential_decay "label1" ∉ ([] : List GraphNode) :=
  eval_predict_no_transforms exTwoTaskCfg exLrs ModeKeys.EVAL exFeatures
    exLabelsMulti 10
    (ModelSpec.mk (some (LossExpr.aggregate ["label1", "label2"]))
      (exTwoTaskModelSpec.predictions)) []
    (Or.inl rfl) (by rfl) "label1"

/-- C9: for every task with a configured weight_feature_name, the
per-example weight is resolved from the features mapping when
weight_is_a_feature and from the labels mapping otherwise, the result
depending only on the expected mapping; and when the key is absent from
the expected mapping the whole model-spec build fails with a missing-key
error instead of falling back to the other mapping. -/
theorem weight_routing_missing_key (cfg : TaskConfig) (w : String)
    (features label_map : List (String × Tensor))
    (hw : cfg.weight_feature_name = some w) :
    (cfg.weight_is_a_feature = true →
      get_task_weight cfg features label_map =
        (match lookupKey features w with
         | some v => Except.ok (some v)
         | none => Except.error ("KeyError: " ++ w))) ∧
    (cfg.weight_is_a_feature = false →
      get_task_weight cfg features label_map =
        (match lookupKey label_map w with
         | some v => Except.ok (some v)
         | none => Except.error ("KeyError: " ++ w))) ∧
    (∀ tcfg : TaskSpecConfig, ∀ lrs : LearningRateSpec, ∀ mode : ModeKeys,
      ∀ d : Nat, cfg ∈ tcfg.multi_task_spec →
      lookupKey (if cfg.weight_is_a_feature then features else label_map) w =
        none →
      ∃ e, create_model_spec tcfg lrs mode features (Labels.multi label_map)
        d = Except.error e) ∧
    (∀ lrs : LearningRateSpec, ∀ mode : ModeKeys, ∀ d : Nat, ∀ merge : Bool,
      lookupKey (if cfg.weight_is_a_feature then features else label_map) w =
        none →
      create_model_spec (TaskSpecConfig.mk [cfg] merge) lrs mode features
        (Labels.multi label_map) d = Except.error ("KeyError: " ++ w)) := by
  have herrOf : lookupKey
      (if cfg.weight_is_a_feature then features else label_map) w = none →
      ∀ d : Nat, buildTask cfg d features label_map =
        Except.error ("KeyError: " ++ w) := by
    intro hnone d
    by_cases hf : cfg.weight_is_a_feature = true
    · rw [if_pos hf] at hnone
      simp [buildTask, get_task_weight, hw, hf, hnone]
    · rw [if_neg hf] at hnone
      rw [Bool.not_eq_true] at hf
      simp [buildTask, get_task_weight, hw, hf, hnone]
  refine ⟨?_, ?_, ?_, ?_⟩
  · intro hf
    simp [get_task_weight, hw, hf]
  · intro hf
    simp [get_task_weight, hw, hf]
  · intro tcfg lrs mode d hmem hnone
    have herr := herrOf hnone d
    obtain ⟨e2, he2⟩ := buildAllTasks_error_of_mem tcfg.multi_task_spec d
      features label_map cfg ("KeyError: " ++ w) hmem herr
    refine ⟨e2, ?_⟩
    have hne : ¬ tcfg.multi_task_spec.isEmpty := by
      cases h : tcfg.multi_task_spec with
      | nil => rw [h] at hmem; exact absurd hmem (by simp)
      | cons a l => simp [h]
    unfold create_model_spec
    rw [if_neg hne]
    have hlm : labelMapOf (Labels.multi label_map) = label_map := rfl
    rw [hlm, he2]
  · intro lrs mode d merge hnone
    have herr := herrOf hnone d
    have hall : buildAllTasks [cfg] d features label_map =
        Except.error ("KeyError: " ++ w) := by
      unfold buildAllTasks
      rw [herr]
    unfold create_model_spec
    rw [if_neg (by simp)]
    have hlm : labelMapOf (Labels.multi label_map) = label_map := rfl
    rw [hlm]
    show (match buildAllTasks [cfg] d features label_map with
      | Except.error e => Except.error e
      | Except.ok (task_keys, proj_nodes) => _) =
      Except.error ("KeyError: " ++ w)
    rw [hall]

/-- The label1 task of test_wrong_dict_weight_feature: weight routed to
the labels mapping (weight_is_a_feature false). -/
def exWeightTask : TaskConfig := TaskConfig.mk "label1" 10 (some "weight1") false

/-- A labels mapping that lacks the weight1 key while the features
mapping carries it (task_manager_test.py:585-645). -/
def exWrongLabelMap : List (String × Tensor) :=
  [("label1", Tensor.mk "ones1"), ("label2", Tensor.mk "ones2")]

/-- Features mapping that does carry weight1, which must not be consulted
when the weight is routed to labels. -/
def exWeightFeatures : List (String × Tensor) :=
  [("x", Tensor.mk "zeros"), ("weight1", Tensor.mk "twos")]

/-- Witness for C9: with the weight routed to the labels mapping and
absent there (though present among the features), the build raises the
missing-key error for weight1. -/
theorem weight_routing_missing_key_witness :
    create_model_spec (TaskSpecConfig.mk [exWeightTask] false) exLrs
      ModeKeys.TRAIN exWeightFeatures (Labels.multi exWrongLabelMap) 10 =
      Except.error ("KeyError: " ++ "weight1") :=
  (weight_routing_missing_key exWeightTask "weight1" exWeightFeatures
    exWrongLabelMap (by rfl)).2.2.2 exLrs ModeKeys.TRAIN 10 false (by rfl)
